import Mathlib

set_option autoImplicit false

namespace FlaskApi

/-! Shallow embedding of `src/flask_api/responses.py`: the `ApiResult`
response envelope, the `ApiFileResult` temporary-file server with its
deferred cleanup, and the `ApiAsyncJob` background job runner. -/

mutual
/-- A model of the Python values that flow through this layer: JSON-like
values (`None`, booleans, integers, strings, lists, string-keyed dicts)
plus `pcustom`, an arbitrary object that the JSON encoder rejects and
that only carries its textual representation. -/
inductive PyVal : Type where
  | pnone : PyVal
  | pbool : Bool → PyVal
  | pint : Int → PyVal
  | pstr : String → PyVal
  | plist : PyList → PyVal
  | pdict : PyDict → PyVal
  | pcustom : String → PyVal

/-- A Python list of `PyVal`s. -/
inductive PyList : Type where
  | nil : PyList
  | cons : PyVal → PyList → PyList

/-- A Python dict with string keys and `PyVal` values, in insertion order. -/
inductive PyDict : Type where
  | nil : PyDict
  | cons : String → PyVal → PyDict → PyDict
end

/-- Python truthiness (`bool(v)`), as used by the check
`if data.get('data') or data.get('error')` in `async_target`. -/
def PyVal.truthy : PyVal → Bool
  | .pnone => false
  | .pbool b => b
  | .pint n => n != 0
  | .pstr s => s != ""
  | .plist .nil => false
  | .plist (.cons _ _) => true
  | .pdict .nil => false
  | .pdict (.cons _ _ _) => true
  | .pcustom _ => true

/-- Lookup of a key in a `PyDict`. -/
def PyDict.get : PyDict → String → Option PyVal
  | .nil, _ => none
  | .cons k v d, k' => if k = k' then some v else PyDict.get d k'

/-- Python `d.get(k)`: `some` of the binding of `k`, `none` when the key is
absent. -/
def pyGet : PyVal → String → Option PyVal
  | .pdict d, k => PyDict.get d k
  | _, _ => none

/-- Truthiness of a `d.get(k)` result: an absent key gives Python `None`,
which is falsy. -/
def truthyOpt : Option PyVal → Bool
  | none => false
  | some v => v.truthy

/-- One character of the JSON string escaping performed by the serializer. -/
def escapeChar (c : Char) : List Char :=
  if c = '"' then ['\\', '"']
  else if c = '\\' then ['\\', '\\']
  else if c = '\n' then ['\\', 'n']
  else if c = '\t' then ['\\', 't']
  else if c = '\r' then ['\\', 'r']
  else [c]

/-- JSON encoding of a string literal, quotes included. -/
def encodeStr (s : String) : String :=
  "\"" ++ String.mk (s.data.foldr (fun c acc => escapeChar c ++ acc) []) ++ "\""

mutual
/-- Model of `json.dumps` with its default separators: `some` of the encoded
text for JSON-serializable values, `none` (the exception caught in
`to_response`) when the value contains a non-serializable object. -/
def jsonDumps : PyVal → Option String
  | .pnone => some "null"
  | .pbool true => some "true"
  | .pbool false => some "false"
  | .pint n => some (toString n)
  | .pstr s => some (encodeStr s)
  | .plist l =>
    match jsonDumpsList l with
    | some parts => some ("[" ++ parts ++ "]")
    | none => none
  | .pdict d =>
    match jsonDumpsDict d with
    | some parts => some ("\x7b" ++ parts ++ "\x7d")
    | none => none
  | .pcustom _ => none

/-- Comma-separated encoding of the elements of a list. -/
def jsonDumpsList : PyList → Option String
  | .nil => some ""
  | .cons v .nil => jsonDumps v
  | .cons v (.cons w l) =>
    match jsonDumps v, jsonDumpsList (.cons w l) with
    | some a, some b => some (a ++ ", " ++ b)
    | _, _ => none

/-- Comma-separated encoding of the entries of a dict. -/
def jsonDumpsDict : PyDict → Option String
  | .nil => some ""
  | .cons k v .nil =>
    match jsonDumps v with
    | some a => some (encodeStr k ++ ": " ++ a)
    | none => none
  | .cons k v (.cons k' w d) =>
    match jsonDumps v, jsonDumpsDict (.cons k' w d) with
    | some a, some b => some (encodeStr k ++ ": " ++ a ++ ", " ++ b)
    | _, _ => none
end

mutual
/-- Model of Python `repr`: the fallback textual representation substituted
by `to_response` when JSON serialization fails. For `pcustom` it is the
carried representation text. -/
def pyRepr : PyVal → String
  | .pnone => "None"
  | .pbool true => "True"
  | .pbool false => "False"
  | .pint n => toString n
  | .pstr s => "\x27" ++ s ++ "\x27"
  | .plist l => "[" ++ pyReprList l ++ "]"
  | .pdict d => "\x7b" ++ pyReprDict d ++ "\x7d"
  | .pcustom r => r

/-- Comma-separated `repr` of the elements of a list. -/
def pyReprList : PyList → String
  | .nil => ""
  | .cons v .nil => pyRepr v
  | .cons v (.cons w l) => pyRepr v ++ ", " ++ pyReprList (.cons w l)

/-- Comma-separated `repr` of the entries of a dict. -/
def pyReprDict : PyDict → String
  | .nil => ""
  | .cons k v .nil => "\x27" ++ k ++ "\x27: " ++ pyRepr v
  | .cons k v (.cons k' w d) =>
    "\x27" ++ k ++ "\x27: " ++ pyRepr v ++ ", " ++ pyReprDict (.cons k' w d)
end

/-- The fields of a framework `Response` that this layer sets. -/
structure Response where
  body : String
  status : Int
  mimetype : String
deriving DecidableEq

/-- The value `r` actually serialized by `to_response` (responses.py lines
28-31): the serializer's output when one is given, the stored value
otherwise. -/
def serializedValue (value : PyVal) : Option (PyVal → PyVal) → PyVal
  | some f => f value
  | none => value

/-- Shallow embedding of `ApiResult.to_response` (responses.py lines 27-41):
apply the optional serializer, try `json.dumps`, fall back to `repr` on a
serialization failure, and wrap the text in a `Response` carrying the
stored status and the fixed `application/json` mimetype. The
`try/except` around `json.dumps` makes this a total function: no
serialization failure escapes to the caller. -/
def ApiResult.to_response (value : PyVal) (status : Int)
    (serializer : Option (PyVal → PyVal)) : Response :=
  let r := serializedValue value serializer
  let j := match jsonDumps r with
    | some j => j
    | none => pyRepr r
  { body := j, status := status, mimetype := "application/json" }

/-- Retention window for staged files (responses.py line 50). -/
def KEEP_FILE_FOR_SECONDS : Nat := 60

/-- Retry bound for the deferred cleanup (responses.py line 13). -/
def MAX_CLEANUP_TRIES : Nat := 5

/-- Whether a path already ends with the separator. -/
def endsWithSep (a : String) : Bool := a.data.getLast? = some '/'

/-- Model of `os.path.join` for the call shapes occurring in this file: the
second argument is always a relative, non-empty path fragment, so the
join inserts a single separator unless the first part is empty or
already ends with one. -/
def ospJoin (a b : String) : String :=
  if a = "" then b
  else if endsWithSep a then a ++ b
  else a ++ "/" ++ b

/-- Shallow embedding of `job_path` (responses.py lines 140-141):
`os.path.join(current_app.static_folder, f'./temp/<job_id>.json')`. -/
def job_path (static_folder job_id : String) : String :=
  ospJoin static_folder ("./temp/" ++ job_id ++ ".json")

/-- The outcome document built by `ApiAsyncJob.async_target` from the result
of the wrapped unit of work: `Except.ok v` models a normal return of `v`,
`Except.error tr` an exception whose `traceback.format_exc()` text is
`tr`. The `try/except` catches every exception, so the document is total
in the outcome. -/
def asyncDoc : Except String PyVal → PyVal
  | .ok v =>
    .pdict (.cons "status" (.pstr "complete") (.cons "data" v .nil))
  | .error tr =>
    .pdict (.cons "status" (.pstr "complete") (.cons "error" (.pstr tr) .nil))

/-- Shallow embedding of `ApiAsyncJob.async_target` (responses.py lines
109-126): build the outcome document; if `data.get('data') or
data.get('error')` is truthy, persist the document as JSON at
`job_path(job_id)` — returned here as `some (path, document)` —
otherwise write nothing (`none`). No exception of the unit of work is
rethrown. -/
def async_target (static_folder job_id : String)
    (result : Except String PyVal) : Option (String × PyVal) :=
  let data := asyncDoc result
  if truthyOpt (pyGet data "data") || truthyOpt (pyGet data "error")
  then some (job_path static_folder job_id, data)
  else none

/-- A filesystem state: the regular files and the directories present. -/
structure FS where
  files : List String
  dirs : List String
deriving DecidableEq

/-- `os.path.isfile`. -/
def FS.isfile (fs : FS) (p : String) : Bool := fs.files.contains p

/-- `os.path.isdir`. -/
def FS.isdir (fs : FS) (p : String) : Bool := fs.dirs.contains p

/-- `os.makedirs p`: record the directory as present. -/
def FS.makedirs (fs : FS) (p : String) : FS := { fs with dirs := p :: fs.dirs }

/-- `shutil.copy2 src dst`: record `dst` as a present file. -/
def FS.copy2 (fs : FS) (_src dst : String) : FS :=
  { fs with files := dst :: fs.files }

/-- Splits a character list at the last occurrence of `sep`:
`(prefix, some suffix)` when `sep` occurs, `(l, none)` otherwise. -/
def lastSplit (sep : Char) : List Char → List Char × Option (List Char)
  | [] => ([], none)
  | c :: cs =>
    match lastSplit sep cs with
    | (pre, some post) => (c :: pre, some post)
    | (pre, none) => if c = sep then ([], some pre) else (c :: pre, none)

/-- Python `s.rsplit(sep, 1)`: the piece before the last `sep` and, when
`sep` occurs at all, the piece after it. -/
def rsplitOnce (sep : Char) (s : String) : String × Option String :=
  match lastSplit sep s.data with
  | (pre, some post) => (String.mk pre, some (String.mk post))
  | (pre, none) => (String.mk pre, none)

/-- `os.path.basename`: the part of the path after the last slash. -/
def basename (p : String) : String :=
  match rsplitOnce '/' p with
  | (_, some post) => post
  | (pre, none) => pre

/-- The unique staged name built in `ApiFileResult.__init__` (responses.py
lines 65-67): `attachment_name.rsplit('.', 1)`, append `_<token>` to the
first piece, rejoin with `'.'`. `tok` is the `uuid4().hex` token. -/
def uniqueName (attachment_name tok : String) : String :=
  match rsplitOnce '.' attachment_name with
  | (stem, none) => stem ++ "_" ++ tok
  | (stem, some ext) => stem ++ "_" ++ tok ++ "." ++ ext

/-- The error raised by `ApiFileResult.__init__` on a path that is not a
regular file. The source raises `TypeError`; the spec's error taxonomy
calls this kind InvalidInput. -/
inductive ApiError : Type where
  | invalidInput : ApiError
deriving DecidableEq

/-- What a successful `ApiFileResult.__init__` produces: the payload value,
the stored HTTP status, and the staged temp file whose deferred cleanup
was registered with `after_this_request`. -/
structure FileResultData where
  value : PyVal
  status : Int
  tmpFile : String

/-- Shallow embedding of `ApiFileResult.__init__` (responses.py lines
54-100). `root` is `current_app.root_path`, `urlFor f` models
`url_for('static', filename=f)`, and `tok` is the `uuid4().hex` token.
Returns the filesystem after any side effects, together with either the
InvalidInput failure or the constructed result. The non-file check comes
first, so on failure the filesystem is returned untouched and no
cleanup is registered. -/
def ApiFileResult.init (fs : FS) (root : String) (urlFor : String → String)
    (tok : String) (filepath : String) (attachment_name : Option String)
    (status : Int) : FS × Except ApiError FileResultData :=
  if fs.isfile filepath = false then (fs, .error .invalidInput)
  else
    let downloads := ospJoin (ospJoin root "static") "downloads"
    let fs1 := if fs.isdir downloads then fs else fs.makedirs downloads
    let name := match attachment_name with
      | some a => if a = "" then basename filepath else a
      | none => basename filepath
    let unique := uniqueName name tok
    let tmp_file := ospJoin downloads unique
    let fs2 := fs1.copy2 filepath tmp_file
    let value : PyVal := .pdict (.cons "success" (.pbool true)
      (.cons "url" (.pstr (urlFor ("downloads/" ++ unique)))
      (.cons "attachment_name" (.pstr name)
      (.cons "available_for_seconds" (.pint (KEEP_FILE_FOR_SECONDS : Int)) .nil))))
    (fs2, .ok { value := value, status := status, tmpFile := tmp_file })

/-- Outcome of one `os.remove` call: success, the two exception kinds caught
by the cleanup, or any other exception (uncaught). -/
inductive RmOutcome : Type where
  | ok | permError | notFoundError | otherError
deriving DecidableEq

/-- The observable steps the cleanup thread takes. -/
inductive CleanupEvent : Type where
  | checkIsFile : Bool → CleanupEvent
  | sleep : Nat → CleanupEvent
  | removeAttempt : RmOutcome → CleanupEvent
deriving DecidableEq

/-- How a run of the cleanup body ends: a normal return, or an uncaught
exception escaping the thread. -/
inductive CleanupEnd : Type where
  | returned | raised
deriving DecidableEq

/-- The environment the cleanup interacts with, indexed by the value of
`tries` at each level of the recursion: whether `os.path.isfile` still
sees the staged file, and how `os.remove` behaves there. -/
structure CleanupEnv where
  isfile : Nat → Bool
  removeOutcome : Nat → RmOutcome

/-- Shallow embedding of `cleanup_tempfile` (responses.py lines 86-97) as
the trace of events it performs plus how it ends: return at once if the
staged file is gone; otherwise sleep the retention window and call
`os.remove`; on `PermissionError` or `FileNotFoundError` sleep 2 seconds
and recurse with `tries + 1` provided `tries < MAX_CLEANUP_TRIES`. -/
def cleanup_tempfile (env : CleanupEnv) (tries : Nat) :
    List CleanupEvent × CleanupEnd :=
  if env.isfile tries = false then ([.checkIsFile false], .returned)
  else
    let pre : List CleanupEvent :=
      [.checkIsFile true, .sleep KEEP_FILE_FOR_SECONDS]
    match env.removeOutcome tries with
    | .ok => (pre ++ [.removeAttempt .ok], .returned)
    | .otherError => (pre ++ [.removeAttempt .otherError], .raised)
    | .permError =>
      if tries < MAX_CLEANUP_TRIES then
        let rest := cleanup_tempfile env (tries + 1)
        (pre ++ [.removeAttempt .permError, .sleep 2] ++ rest.1, rest.2)
      else (pre ++ [.removeAttempt .permError, .sleep 2], .returned)
    | .notFoundError =>
      if tries < MAX_CLEANUP_TRIES then
        let rest := cleanup_tempfile env (tries + 1)
        (pre ++ [.removeAttempt .notFoundError, .sleep 2] ++ rest.1, rest.2)
      else (pre ++ [.removeAttempt .notFoundError, .sleep 2], .returned)
termination_by MAX_CLEANUP_TRIES - tries
decreasing_by all_goals (simp_wf; omega)

/-- Selects the deletion attempts of a cleanup trace. -/
def CleanupEvent.isRemove : CleanupEvent → Bool
  | .removeAttempt _ => true
  | _ => false

/-- Selects the sleeps of a cleanup trace. -/
def CleanupEvent.isSleep : CleanupEvent → Bool
  | .sleep _ => true
  | _ => false

/-- Number of `os.remove` calls in a cleanup trace. -/
def removeCount (evs : List CleanupEvent) : Nat :=
  (evs.filter CleanupEvent.isRemove).length

/-- Number of `time.sleep` calls in a cleanup trace. -/
def sleepCount (evs : List CleanupEvent) : Nat :=
  (evs.filter CleanupEvent.isSleep).length

/-- A cleanup environment in which the staged file is always present and
every `os.remove` call fails with `PermissionError`. -/
def alwaysDenied : CleanupEnv := ⟨fun _ => true, fun _ => .permError⟩

/-! Helper lemmas. -/

theorem strAppend_left_cancel {a b c : String} (h : a ++ b = a ++ c) : b = c := by
  have hd := congrArg String.data h
  simp only [String.data_append] at hd
  exact String.ext (List.append_cancel_left hd)

theorem strAppend_right_cancel {a b c : String} (h : a ++ c = b ++ c) : a = b := by
  have hd := congrArg String.data h
  simp only [String.data_append] at hd
  exact String.ext (List.append_cancel_right hd)

theorem lastSplit_of_not_mem {sep : Char} {l : List Char} (h : sep ∉ l) :
    lastSplit sep l = (l, none) := by
  induction l with
  | nil => rfl
  | cons c cs ih =>
    simp only [List.mem_cons, not_or] at h
    have h1 : ¬ c = sep := fun hc => h.1 hc.symm
    simp [lastSplit, ih h.2, h1]

theorem uniqueName_tok_inj {name t1 t2 : String}
    (h : uniqueName name t1 = uniqueName name t2) : t1 = t2 := by
  unfold uniqueName at h
  cases hsplit : rsplitOnce '.' name with
  | mk stem ext =>
    rw [hsplit] at h
    cases ext with
    | none => exact strAppend_left_cancel h
    | some e =>
      have h1 := strAppend_right_cancel h
      have h2 := strAppend_right_cancel h1
      exact strAppend_left_cancel h2

theorem ospJoin_left_cancel {a b c : String} (h : ospJoin a b = ospJoin a c) :
    b = c := by
  unfold ospJoin at h
  by_cases h0 : a = ""
  · simpa [h0] using h
  · by_cases h1 : endsWithSep a = true
    · rw [if_neg h0, if_neg h0, if_pos h1, if_pos h1] at h
      exact strAppend_left_cancel h
    · rw [if_neg h0, if_neg h0, if_neg h1, if_neg h1] at h
      exact strAppend_left_cancel h

theorem removeCount_append (xs ys : List CleanupEvent) :
    removeCount (xs ++ ys) = removeCount xs + removeCount ys := by
  simp [removeCount, List.filter_append]

theorem cleanup_step_caught (env : CleanupEnv) (t : Nat) (o : RmOutcome)
    (hf : env.isfile t = true)
    (hr : env.removeOutcome t = o)
    (ho : o = RmOutcome.permError ∨ o = RmOutcome.notFoundError)
    (hlt : t < MAX_CLEANUP_TRIES) :
    cleanup_tempfile env t
      = ([.checkIsFile true, .sleep KEEP_FILE_FOR_SECONDS,
          .removeAttempt o, .sleep 2] ++ (cleanup_tempfile env (t + 1)).1,
         (cleanup_tempfile env (t + 1)).2) := by
  rcases ho with ho | ho <;> subst ho <;>
    (conv_lhs => rw [cleanup_tempfile]) <;> simp [hf, hr, hlt]

theorem cleanup_stop_caught (env : CleanupEnv) (t : Nat) (o : RmOutcome)
    (hf : env.isfile t = true)
    (hr : env.removeOutcome t = o)
    (ho : o = RmOutcome.permError ∨ o = RmOutcome.notFoundError)
    (hge : ¬ t < MAX_CLEANUP_TRIES) :
    cleanup_tempfile env t
      = ([.checkIsFile true, .sleep KEEP_FILE_FOR_SECONDS,
          .removeAttempt o, .sleep 2], .returned) := by
  rcases ho with ho | ho <;> subst ho <;>
    (conv_lhs => rw [cleanup_tempfile]) <;> simp [hf, hr, hge]

theorem cleanup_removeCount_le (env : CleanupEnv) (t : Nat) :
    removeCount (cleanup_tempfile env t).1 ≤ (MAX_CLEANUP_TRIES - t) + 1 := by
  refine cleanup_tempfile.induct env
    (fun t => removeCount (cleanup_tempfile env t).1 ≤ (MAX_CLEANUP_TRIES - t) + 1)
    ?_ ?_ ?_ ?_ ?_ ?_ ?_ t
  · intro x h
    rw [cleanup_tempfile]
    simp [h, removeCount, CleanupEvent.isRemove]
  · intro x h hr
    rw [cleanup_tempfile]
    simp [h, hr, removeCount, CleanupEvent.isRemove, List.filter]
  · intro x h hr
    rw [cleanup_tempfile]
    simp [h, hr, removeCount, CleanupEvent.isRemove, List.filter]
  · intro x h hr hlt ih
    rw [cleanup_tempfile]
    simp only [h, hr, hlt, if_neg, if_pos, ite_true, ite_false,
      Bool.false_eq_true]
    simp [removeCount_append, removeCount, CleanupEvent.isRemove,
      List.filter] at ih ⊢
    omega
  · intro x h hr hlt
    rw [cleanup_tempfile]
    simp [h, hr, hlt, removeCount, CleanupEvent.isRemove, List.filter]
  · intro x h hr hlt ih
    rw [cleanup_tempfile]
    simp only [h, hr, hlt, if_neg, if_pos, ite_true, ite_false,
      Bool.false_eq_true]
    simp [removeCount_append, removeCount, CleanupEvent.isRemove,
      List.filter] at ih ⊢
    omega
  · intro x h hr hlt
    rw [cleanup_tempfile]
    simp [h, hr, hlt, removeCount, CleanupEvent.isRemove, List.filter]

theorem cleanup_no_raise (env : CleanupEnv)
    (hc : ∀ k, env.removeOutcome k ≠ RmOutcome.otherError) (t : Nat) :
    (cleanup_tempfile env t).2 = CleanupEnd.returned := by
  refine cleanup_tempfile.induct env
    (fun t => (cleanup_tempfile env t).2 = CleanupEnd.returned)
    ?_ ?_ ?_ ?_ ?_ ?_ ?_ t
  · intro x h
    rw [cleanup_tempfile]; simp [h]
  · intro x h hr
    rw [cleanup_tempfile]; simp [h, hr]
  · intro x h hr
    exact absurd hr (hc x)
  · intro x h hr hlt ih
    rw [cleanup_tempfile]; simp [h, hr, hlt, ih]
  · intro x h hr hlt
    rw [cleanup_tempfile]; simp [h, hr, hlt]
  · intro x h hr hlt ih
    rw [cleanup_tempfile]; simp [h, hr, hlt, ih]
  · intro x h hr hlt
    rw [cleanup_tempfile]; simp [h, hr, hlt]

theorem alwaysDenied_count :
    removeCount (cleanup_tempfile alwaysDenied 0).1 = 6 := by
  have stop : cleanup_tempfile alwaysDenied 5
      = ([.checkIsFile true, .sleep KEEP_FILE_FOR_SECONDS,
          .removeAttempt .permError, .sleep 2], .returned) :=
    cleanup_stop_caught alwaysDenied 5 .permError rfl rfl (Or.inl rfl)
      (by decide)
  have step : ∀ t, t < MAX_CLEANUP_TRIES →
      removeCount (cleanup_tempfile alwaysDenied t).1
        = 1 + removeCount (cleanup_tempfile alwaysDenied (t + 1)).1 := by
    intro t ht
    rw [cleanup_step_caught alwaysDenied t .permError rfl rfl (Or.inl rfl) ht]
    simp [removeCount_append, removeCount, CleanupEvent.isRemove, List.filter]
    omega
  have c5 : removeCount (cleanup_tempfile alwaysDenied 5).1 = 1 := by
    rw [stop]; decide
  rw [step 0 (by decide), step 1 (by decide), step 2 (by decide),
      step 3 (by decide), step 4 (by decide), c5]

theorem async_ok_falsy (sf id : String) (v : PyVal) (hv : v.truthy = false) :
    async_target sf id (.ok v) = none := by
  have hd : pyGet (asyncDoc (.ok v)) "data" = some v := rfl
  have he : pyGet (asyncDoc (.ok v)) "error" = none := rfl
  simp [async_target, hd, he, truthyOpt, hv]

theorem async_ok_truthy (sf id : String) (v : PyVal) (hv : v.truthy = true) :
    async_target sf id (.ok v) = some (job_path sf id, asyncDoc (.ok v)) := by
  have hd : pyGet (asyncDoc (.ok v)) "data" = some v := rfl
  simp [async_target, hd, truthyOpt, hv]

theorem async_error_empty (sf id : String) :
    async_target sf id (.error "") = none := by
  have hd : pyGet (asyncDoc (.error "")) "data" = none := rfl
  have he : pyGet (asyncDoc (.error "")) "error" = some (.pstr "") := rfl
  simp [async_target, hd, he, truthyOpt, PyVal.truthy]

theorem async_error_nonempty (sf id tr : String) (htr : tr ≠ "") :
    async_target sf id (.error tr)
      = some (job_path sf id, asyncDoc (.error tr)) := by
  have hd : pyGet (asyncDoc (.error tr)) "data" = none := rfl
  have he : pyGet (asyncDoc (.error tr)) "error" = some (.pstr tr) := rfl
  simp [async_target, hd, he, truthyOpt, PyVal.truthy, htr]

/-! Theorems for the claims. -/

/-- C3: with no serializer, for every value `v` whose JSON serialization
succeeds with body `b` — which the (external, out-of-scope) JSON decoder
`loads` reads back as `v` — and every integer status `s`,
`ApiResult(v, s).to_response()` produces a response whose body is
exactly that serialization, hence decodes back to `v`, and whose status
equals `s`. -/
theorem C3_to_response_roundtrip (loads : String → Option PyVal)
    (v : PyVal) (s : Int) (b : String)
    (hdump : jsonDumps v = some b) (hload : loads b = some v) :
    (ApiResult.to_response v s none).body = b ∧
    loads (ApiResult.to_response v s none).body = some v ∧
    (ApiResult.to_response v s none).status = s := by
  have hb : (ApiResult.to_response v s none).body = b := by
    simp [ApiResult.to_response, serializedValue, hdump]
  exact ⟨hb, by rw [hb]; exact hload, rfl⟩

/-- Witness for C3 at `v = pint 7`, `s = 201`, with the decoder that reads
`"7"` back as `pint 7`. -/
theorem C3_to_response_roundtrip_witness :
    (ApiResult.to_response (PyVal.pint 7) 201 none).body = "7" ∧
    (fun b => if b = "7" then some (PyVal.pint 7) else none)
      ((ApiResult.to_response (PyVal.pint 7) 201 none).body)
        = some (PyVal.pint 7) ∧
    (ApiResult.to_response (PyVal.pint 7) 201 none).status = 201 :=
  C3_to_response_roundtrip
    (fun b => if b = "7" then some (PyVal.pint 7) else none)
    (PyVal.pint 7) 201 "7" rfl (by simp)

/-- C4: `to_response` never raises to the caller: for every value whose
serialization fails, the body substituted is the value's textual
representation, and the response is still sent with the
`application/json` content-type and the given status. -/
theorem C4_to_response_fallback (v : PyVal) (s : Int)
    (serializer : Option (PyVal → PyVal))
    (hfail : jsonDumps (serializedValue v serializer) = none) :
    ApiResult.to_response v s serializer =
      { body := pyRepr (serializedValue v serializer), status := s,
        mimetype := "application/json" } := by
  simp [ApiResult.to_response, hfail]

/-- Witness for C4 at a non-serializable object. -/
theorem C4_to_response_fallback_witness :
    ApiResult.to_response (PyVal.pcustom "<object at 0x1>") 200 none =
      { body := "<object at 0x1>", status := 200,
        mimetype := "application/json" } :=
  C4_to_response_fallback (PyVal.pcustom "<object at 0x1>") 200 none rfl

/-- C7: when the given path is not an existing regular file,
`ApiFileResult.__init__` fails with the InvalidInput error (the source's
`TypeError`) before any side effect: the filesystem is returned
unchanged — no directory created, no file copied — and no result, hence
no registered cleanup, is produced. -/
theorem C7_init_fails_fast (fs : FS) (root : String)
    (urlFor : String → String) (tok filepath : String)
    (attachment_name : Option String) (status : Int)
    (hnf : fs.isfile filepath = false) :
    ApiFileResult.init fs root urlFor tok filepath attachment_name status
      = (fs, .error .invalidInput) := by
  simp [ApiFileResult.init, hnf]

/-- Witness for C7 on an empty filesystem. -/
theorem C7_init_fails_fast_witness :
    ApiFileResult.init ⟨[], []⟩ "/app" (fun f => "/static/" ++ f) "t0ken"
      "/tmp/report.pdf" none 200
      = (⟨[], []⟩, .error .invalidInput) :=
  C7_init_fails_fast ⟨[], []⟩ "/app" (fun f => "/static/" ++ f) "t0ken"
    "/tmp/report.pdf" none 200 rfl

/-- C1 counterexample: with the staged file always present and `os.remove`
always failing with `PermissionError`, the deferred cleanup performs six
deletion attempts in total — not at most five as claimed — because the
guard `tries < MAX_CLEANUP_TRIES` is checked after an attempt with
`tries` starting at 0, allowing attempts at `tries = 0, 1, 2, 3, 4, 5`. -/
theorem C1_counterexample_six_attempts :
    removeCount (cleanup_tempfile alwaysDenied 0).1 = 6 ∧
    ¬ removeCount (cleanup_tempfile alwaysDenied 0).1 ≤ 5 :=
  ⟨alwaysDenied_count, by rw [alwaysDenied_count]; omega⟩

/-- C1 (amended): the deferred cleanup first checks that the staged file
still exists, sleeps the 60-second retention window, then attempts
deletion; on a permission or not-found failure it sleeps 2 seconds and,
while `tries < MAX_CLEANUP_TRIES`, re-runs the whole body — existence
check and another full retention-window sleep — before the next attempt,
so at most `MAX_CLEANUP_TRIES + 1 = 6` deletion attempts occur, and as
long as `os.remove` only fails with the two caught exception kinds the
cleanup ends in a silent normal return. -/
theorem C1_cleanup_retry_bound (env : CleanupEnv)
    (hc : ∀ k, env.removeOutcome k ≠ RmOutcome.otherError) :
    removeCount (cleanup_tempfile env 0).1 ≤ 6 ∧
    (cleanup_tempfile env 0).2 = CleanupEnd.returned ∧
    (∀ t, env.isfile t = true → env.removeOutcome t = RmOutcome.permError →
      t < MAX_CLEANUP_TRIES →
      (cleanup_tempfile env t).1
        = [.checkIsFile true, .sleep KEEP_FILE_FOR_SECONDS,
           .removeAttempt .permError, .sleep 2]
          ++ (cleanup_tempfile env (t + 1)).1) := by
  refine ⟨?_, cleanup_no_raise env hc 0, ?_⟩
  · have hb := cleanup_removeCount_le env 0
    simp only [MAX_CLEANUP_TRIES] at hb
    omega
  · intro t hf hr hlt
    rw [cleanup_step_caught env t .permError hf hr (Or.inl rfl) hlt]

/-- Witness for C1 (amended) in the always-denied environment. -/
theorem C1_cleanup_retry_bound_witness :
    removeCount (cleanup_tempfile alwaysDenied 0).1 ≤ 6 ∧
    (cleanup_tempfile alwaysDenied 0).2 = CleanupEnd.returned ∧
    (∀ t, alwaysDenied.isfile t = true →
      alwaysDenied.removeOutcome t = RmOutcome.permError →
      t < MAX_CLEANUP_TRIES →
      (cleanup_tempfile alwaysDenied t).1
        = [.checkIsFile true, .sleep KEEP_FILE_FOR_SECONDS,
           .removeAttempt .permError, .sleep 2]
          ++ (cleanup_tempfile alwaysDenied (t + 1)).1) :=
  C1_cleanup_retry_bound alwaysDenied (fun _ h => nomatch h)

/-- C2: the job runner writes no result file when the outcome document has
neither a truthy `data` nor a truthy `error` — in particular when the
unit of work returns a falsy value, or when the trace text is empty —
and for every other outcome persists the document at the path derived
from the job identifier. -/
theorem C2_async_persist_condition (sf id : String) :
    (∀ v : PyVal, v.truthy = false → async_target sf id (.ok v) = none) ∧
    (∀ v : PyVal, v.truthy = true →
      async_target sf id (.ok v) = some (job_path sf id, asyncDoc (.ok v))) ∧
    async_target sf id (.error "") = none ∧
    (∀ tr : String, tr ≠ "" →
      async_target sf id (.error tr)
        = some (job_path sf id, asyncDoc (.error tr))) :=
  ⟨fun v hv => async_ok_falsy sf id v hv,
   fun v hv => async_ok_truthy sf id v hv,
   async_error_empty sf id,
   fun tr htr => async_error_nonempty sf id tr htr⟩

/-- Witness for C2: a falsy return (`None`) writes nothing, a truthy return
is persisted. -/
theorem C2_async_persist_condition_witness :
    async_target "app/static" "job-2" (.ok PyVal.pnone) = none ∧
    async_target "app/static" "job-2" (.ok (PyVal.pstr "ok"))
      = some (job_path "app/static" "job-2", asyncDoc (.ok (PyVal.pstr "ok"))) := by
  obtain ⟨hA, hB, _, _⟩ := C2_async_persist_condition "app/static" "job-2"
  exact ⟨hA PyVal.pnone rfl, hB (PyVal.pstr "ok") rfl⟩

/-- C5: a unit of work that raises is captured, not propagated: with the
(always non-empty) `traceback.format_exc()` text `tr`, the runner
persists at the job path the document whose `status` tag is
`complete` and whose `error` field is the full trace text, with no
`data` key present; `async_target` is a total function here, so the
exception never escapes to the caller or the poller. -/
theorem C5_async_error_captured (sf id tr : String) (h : tr ≠ "") :
    async_target sf id (.error tr)
      = some (job_path sf id, asyncDoc (.error tr)) ∧
    pyGet (asyncDoc (.error tr)) "data" = none ∧
    pyGet (asyncDoc (.error tr)) "error" = some (.pstr tr) ∧
    pyGet (asyncDoc (.error tr)) "status" = some (.pstr "complete") :=
  ⟨async_error_nonempty sf id tr h, rfl, rfl, rfl⟩

/-- Witness for C5 at a concrete trace text. -/
theorem C5_async_error_captured_witness :
    async_target "srv/static" "job-9"
        (.error "Traceback (most recent call last):")
      = some (job_path "srv/static" "job-9",
          asyncDoc (.error "Traceback (most recent call last):")) ∧
    pyGet (asyncDoc (.error "Traceback (most recent call last):")) "data"
      = none ∧
    pyGet (asyncDoc (.error "Traceback (most recent call last):")) "error"
      = some (.pstr "Traceback (most recent call last):") ∧
    pyGet (asyncDoc (.error "Traceback (most recent call last):")) "status"
      = some (.pstr "complete") :=
  C5_async_error_captured "srv/static" "job-9"
    "Traceback (most recent call last):" (by decide)

/-- C6 counterexample: a unit of work that returns Python `None` normally
produces no result file at all — the truthiness check drops the outcome —
so the claim does not hold for every normally returned value. -/
theorem C6_counterexample_falsy_result :
    async_target "app/static" "job-1" (.ok PyVal.pnone) = none := rfl

/-- C6 (amended): for every unit of work that returns a truthy value `X`,
the result file is persisted at `job_path(job_id)` and contains exactly
the JSON document with `status` equal to `complete` and `data` equal to
`X`, in that key order; the path is derived deterministically as the
static-asset root joined (through the literal `./` segment of the
source) with the fixed `temp` subfolder, the job identifier and
`.json`. -/
theorem C6_async_success_persisted (sf id : String) (X : PyVal)
    (hX : X.truthy = true) (h0 : sf ≠ "") (hs : endsWithSep sf = false) :
    async_target sf id (.ok X)
      = some (job_path sf id,
          .pdict (.cons "status" (.pstr "complete") (.cons "data" X .nil))) ∧
    job_path sf id = sf ++ "/" ++ ("./temp/" ++ id ++ ".json") := by
  refine ⟨async_ok_truthy sf id X hX, ?_⟩
  simp [job_path, ospJoin, h0, hs]

/-- Witness for C6 (amended) at `X = pint 5`. -/
theorem C6_async_success_persisted_witness :
    async_target "app/static" "j1" (.ok (PyVal.pint 5))
      = some (job_path "app/static" "j1",
          .pdict (.cons "status" (.pstr "complete")
            (.cons "data" (PyVal.pint 5) .nil))) ∧
    job_path "app/static" "j1"
      = "app/static" ++ "/" ++ ("./temp/" ++ "j1" ++ ".json") :=
  C6_async_success_persisted "app/static" "j1" (PyVal.pint 5) rfl
    (by decide) (by decide)

/-- C8: two `ApiFileResult` constructions for the same source path and
attachment name — possibly concurrent, hence from arbitrary filesystem
states and with arbitrary statuses — stage under distinct file names
whenever their random tokens differ: the token is inserted before the
extension, so the two staged paths never collide. -/
theorem C8_staged_paths_distinct
    (fs1 fs2 : FS) (root : String) (urlFor1 urlFor2 : String → String)
    (tok1 tok2 filepath : String) (attachment_name : Option String)
    (status1 status2 : Int) (d1 d2 : FileResultData)
    (htok : tok1 ≠ tok2)
    (h1 : (ApiFileResult.init fs1 root urlFor1 tok1 filepath attachment_name
            status1).2 = .ok d1)
    (h2 : (ApiFileResult.init fs2 root urlFor2 tok2 filepath attachment_name
            status2).2 = .ok d2) :
    d1.tmpFile ≠ d2.tmpFile := by
  intro hcol
  apply htok
  by_cases hf1 : fs1.isfile filepath = false
  · simp [ApiFileResult.init, hf1] at h1
  by_cases hf2 : fs2.isfile filepath = false
  · simp [ApiFileResult.init, hf2] at h2
  simp [ApiFileResult.init, hf1] at h1
  simp [ApiFileResult.init, hf2] at h2
  have e1 := congrArg FileResultData.tmpFile h1
  have e2 := congrArg FileResultData.tmpFile h2
  rw [← e1, ← e2] at hcol
  exact uniqueName_tok_inj (ospJoin_left_cancel hcol)

/-- Witness for C8: two stagings of `src.txt` with tokens `aaaa` and
`bbbb`. -/
theorem C8_staged_paths_distinct_witness :
    ({ value := PyVal.pdict (PyDict.cons "success" (PyVal.pbool true)
          (PyDict.cons "url" (PyVal.pstr "/static/downloads/src_aaaa.txt")
          (PyDict.cons "attachment_name" (PyVal.pstr "src.txt")
          (PyDict.cons "available_for_seconds" (PyVal.pint 60) PyDict.nil)))),
       status := 200,
       tmpFile := "app/static/downloads/src_aaaa.txt" } : FileResultData).tmpFile
    ≠ ({ value := PyVal.pdict (PyDict.cons "success" (PyVal.pbool true)
          (PyDict.cons "url" (PyVal.pstr "/static/downloads/src_bbbb.txt")
          (PyDict.cons "attachment_name" (PyVal.pstr "src.txt")
          (PyDict.cons "available_for_seconds" (PyVal.pint 60) PyDict.nil)))),
         status := 200,
         tmpFile := "app/static/downloads/src_bbbb.txt" } : FileResultData).tmpFile :=
  C8_staged_paths_distinct ⟨["src.txt"], []⟩ ⟨["src.txt"], []⟩ "app"
    (fun f => "/static/" ++ f) (fun f => "/static/" ++ f) "aaaa" "bbbb"
    "src.txt" none 200 200 _ _ (by decide) rfl rfl

/-- C9: an attachment name containing no `'.'` still yields a unique staged
name: the construction succeeds and appends `_<token>` to the end of
the whole name, and distinct tokens still give distinct staged names. -/
theorem C9_uniqueName_no_extension (name tok tok' : String)
    (hnd : '.' ∉ name.data) (hne : tok ≠ tok') :
    uniqueName name tok = name ++ "_" ++ tok ∧
    uniqueName name tok ≠ uniqueName name tok' := by
  have h1 : rsplitOnce '.' name = (name, none) := by
    simp [rsplitOnce, lastSplit_of_not_mem hnd]
  exact ⟨by simp [uniqueName, h1], fun h => hne (uniqueName_tok_inj h)⟩

/-- Witness for C9 at the extensionless name `README`. -/
theorem C9_uniqueName_no_extension_witness :
    uniqueName "README" "aa" = "README" ++ "_" ++ "aa" ∧
    uniqueName "README" "aa" ≠ uniqueName "README" "bb" :=
  C9_uniqueName_no_extension "README" "aa" "bb" (by decide) (by decide)

/-- C10: if the staged file no longer exists at the moment the cleanup
thread body starts (the check at `tries = 0`), the cleanup returns
immediately: its whole trace is the one failed existence check, with no
sleep for the retention window and no deletion attempt, so the
filesystem is not modified. -/
theorem C10_cleanup_skips_when_gone (env : CleanupEnv)
    (h : env.isfile 0 = false) :
    cleanup_tempfile env 0 = ([.checkIsFile false], .returned) ∧
    sleepCount (cleanup_tempfile env 0).1 = 0 ∧
    removeCount (cleanup_tempfile env 0).1 = 0 := by
  have he : cleanup_tempfile env 0 = ([.checkIsFile false], .returned) := by
    rw [cleanup_tempfile]; simp [h]
  refine ⟨he, ?_, ?_⟩ <;> rw [he] <;> decide

/-- Witness for C10 in an environment where the staged file is gone. -/
theorem C10_cleanup_skips_when_gone_witness :
    cleanup_tempfile ⟨fun _ => false, fun _ => RmOutcome.ok⟩ 0
      = ([.checkIsFile false], .returned) ∧
    sleepCount (cleanup_tempfile ⟨fun _ => false, fun _ => RmOutcome.ok⟩ 0).1
      = 0 ∧
    removeCount (cleanup_tempfile ⟨fun _ => false, fun _ => RmOutcome.ok⟩ 0).1
      = 0 :=
  C10_cleanup_skips_when_gone ⟨fun _ => false, fun _ => RmOutcome.ok⟩ rfl

end FlaskApi
